import Mathlib

/-!
Shallow embedding of the partykals particle-engine core (particle lifecycle,
alive/dead pool, emitter scheduling) for checking the natural-language spec.

JavaScript numbers are modelled as rationals (Q); a JS value that may be
undefined or null is modelled as an Option.  Randomizer draws are passed in
explicitly as parameters, so a value-like option field carries the value the
randomizer generated for the call in question (claims quantify over all
rationals, which covers every possible draw).
-/

namespace Partykals

/-- A THREE.Vector3, modelled componentwise over Q. -/
structure Vec3 where
  x : ℚ
  y : ℚ
  z : ℚ
deriving DecidableEq, Repr

def Vec3.zero : Vec3 := ⟨0, 0, 0⟩

def Vec3.add (a b : Vec3) : Vec3 := ⟨a.x + b.x, a.y + b.y, a.z + b.z⟩

def Vec3.sub (a b : Vec3) : Vec3 := ⟨a.x - b.x, a.y - b.y, a.z - b.z⟩

def Vec3.smul (k : ℚ) (a : Vec3) : Vec3 := ⟨k * a.x, k * a.y, k * a.z⟩

/-- A THREE.Color, modelled componentwise over Q. -/
structure Color where
  r : ℚ
  g : ℚ
  b : ℚ
deriving DecidableEq, Repr

/-- JS truthiness of a number-or-undefined/null value: undefined, null and 0
are falsy, every other number is truthy (NaN does not arise over Q). -/
def jsTruthy : Option ℚ → Bool
  | none => false
  | some q => q != 0

/-- JS expression a-or-else-b on numbers: q stands for itself, 0 falls back
to the default (JS operator or). -/
def jsOr (q d : ℚ) : ℚ := if q = 0 then d else q

/-- JS a-or-else-b where a may be undefined/null. -/
def jsOrOpt (o : Option ℚ) (d : ℚ) : ℚ :=
  match o with
  | none => d
  | some q => jsOr q d

/-- JS expression a-or-b between two number-or-null values (used for the
first-update pushes: this.alpha or this.startAlpha). -/
def jsOrQ (a b : Option ℚ) : Option ℚ := if jsTruthy a then a else b

/-- JS a-or-b between two object-or-null values: an object is truthy. -/
def jsOrObj {α : Type} (a b : Option α) : Option α := if a.isSome then a else b

/-! ## Utility math (src/unnamed/part_001, utils.js) -/

/-- utils.getRandomBetween: draw is the Math.random() sample in [0,1). -/
def getRandomBetween (lo hi draw : ℚ) : ℚ := draw * (hi - lo) + lo

/-- utils.getRandomWithSpread: if extraRandom is falsy return baseVal, else a
random value between baseVal and baseVal + extraRandom. -/
def getRandomWithSpread (baseVal : ℚ) (extraRandom : Option ℚ) (draw : ℚ) : ℚ :=
  if jsTruthy extraRandom = false then baseVal
  else getRandomBetween baseVal (baseVal + extraRandom.getD 0) draw

/-- utils.lerp between two numbers. -/
def lerp (x y alpha : ℚ) : ℚ := x * (1 - alpha) + y * alpha

/-- utils.lerpColors: THREE.Color.lerp is componentwise
r := r + (other.r - r) * alpha, which equals lerp componentwise. -/
def lerpColors (a b : Color) (alpha : ℚ) : Color :=
  ⟨lerp a.r b.r alpha, lerp a.g b.g alpha, lerp a.b b.b alpha⟩

/-! ## Value sources (constant-or-randomizer dichotomy)

A field configured as "either a constant number or a Randomizer" is modelled
as a QSource: constV q is the plain number q, randV q is a randomizer object
whose generate() call returns q this time.  The two differ in JS truthiness:
the number 0 is falsy while a randomizer object is always truthy. -/

inductive QSource where
  | constV (q : ℚ)
  | randV (q : ℚ)
deriving DecidableEq, Repr

/-- The value a QSource yields (the constant, or this call draw). -/
def QSource.val : QSource → ℚ
  | .constV q => q
  | .randV q => q

/-- JS truthiness of a QSource: a constant number is truthy iff nonzero, a
randomizer object is always truthy. -/
def QSource.truthy : QSource → Bool
  | .constV q => q != 0
  | .randV _ => true

/-- JS truthiness of an optional QSource field. -/
def jsTruthyS : Option QSource → Bool
  | none => false
  | some s => s.truthy

/-- utils.randomizerOrValue: (val.generate then val.generate() else val) or 0.
The trailing or-0 maps a falsy result (0 stays 0) to 0, hence the identity on
the yielded rational. -/
def randomizerOrValue (s : QSource) : ℚ := jsOr s.val 0

/-! ## Emitter (src/dist/partykals.module.js, Emitter class) -/

/-- Emitter options.  onSpawnBurst / onInterval / interval are constant-or-
randomizer quantities; detoretingMinTtl is a plain number when present.  The
constructor has already applied options.interval = options.interval or 1. -/
structure EmitterOptions where
  onSpawnBurst : Option QSource
  onInterval : Option QSource
  interval : QSource
  detoretingMinTtl : Option ℚ
deriving DecidableEq, Repr

/-- Emitter state: options plus the private scheduling counters.  At
construction age = 0 and timeToSpawn = Math.random() * randomizerOrValue
(options.interval). -/
structure Emitter where
  options : EmitterOptions
  age : ℚ
  timeToSpawn : ℚ
deriving DecidableEq, Repr

/-- Emitter constructor: seeds timeToSpawn as draw * resolved interval, where
draw is the Math.random() sample. -/
def Emitter.mk0 (options : EmitterOptions) (draw : ℚ) : Emitter :=
  { options := options
    age := 0
    timeToSpawn := draw * randomizerOrValue options.interval }

/-- system.ttl may be undefined (open-ended system).  The JS comparison
(system.ttl < m) is false when ttl is undefined. -/
def jsLt (o : Option ℚ) (m : ℚ) : Bool :=
  match o with
  | none => false
  | some t => t < m

/-- Emitter.update(deltaTime, system): returns the spawn count for this frame
and the advanced emitter.  Mirrors the source statement by statement:
burst on first update (age = 0 and truthy onSpawnBurst); advance age; early
return when no interval policy; countdown, firing and countdown reseed; decay
scaling by system.ttl / detoretingMinTtl when the system remaining ttl is
strictly below a truthy detoretingMinTtl. -/
def Emitter.update (e : Emitter) (deltaTime : ℚ) (systemTtl : Option ℚ) : ℚ × Emitter :=
  let ret : ℚ :=
    if e.age = 0 ∧ jsTruthyS e.options.onSpawnBurst then
      randomizerOrValue (e.options.onSpawnBurst.getD (.constV 0))
    else 0
  let age1 := e.age + deltaTime
  if jsTruthyS e.options.onInterval = false then
    (ret, { e with age := age1 })
  else
    let t1 := e.timeToSpawn - deltaTime
    let fired := t1 ≤ 0
    let t2 := if fired then randomizerOrValue e.options.interval else t1
    let ret1 :=
      if fired then ret + randomizerOrValue (e.options.onInterval.getD (.constV 0))
      else ret
    let ret2 :=
      if jsTruthy e.options.detoretingMinTtl ∧ jsLt systemTtl (e.options.detoretingMinTtl.getD 0) then
        ret1 * ((systemTtl.getD 0) / (e.options.detoretingMinTtl.getD 0))
      else ret1
    (ret2, { e with age := age1, timeToSpawn := t2 })

/-! ## Particle options (the options.particles document, after the
ParticlesSystem constructor computed the fade / colorize / scaling / rotating
flags).  A value-like field holds the JS value seen at reset time: none is
undefined, some q is the plain number (or, for a randomizer field, the value
that randomizer generates at this reset — every rational is a possible draw,
so quantifying over the field covers all draws). -/

structure ParticleOptions where
  ttl : Option ℚ
  ttlExtra : Option ℚ
  gravityX : Option ℚ
  gravityY : Option ℚ
  gravity : Option ℚ
  gravityZ : Option ℚ
  velocity : Option Vec3
  velocityBonus : Option Vec3
  acceleration : Option Vec3
  offset : Option Vec3
  fade : Bool
  alpha : Option ℚ
  startAlpha : Option ℚ
  endAlpha : Option ℚ
  startAlphaChangeAt : Option ℚ
  colorize : Bool
  color : Option Color
  startColor : Option Color
  endColor : Option Color
  startColorChangeAt : Option ℚ
  scaling : Bool
  size : Option ℚ
  startSize : Option ℚ
  endSize : Option ℚ
  startSizeChangeAt : Option ℚ
  rotating : Bool
  rotation : Option ℚ
  rotationSpeed : Option ℚ
  worldPosition : Bool
deriving DecidableEq, Repr

/-- The blank particle options: everything undefined / disabled. -/
def ParticleOptions.blank : ParticleOptions :=
  { ttl := none, ttlExtra := none
    gravityX := none, gravityY := none, gravity := none, gravityZ := none
    velocity := none, velocityBonus := none, acceleration := none, offset := none
    fade := false, alpha := none, startAlpha := none, endAlpha := none
    startAlphaChangeAt := none
    colorize := false, color := none, startColor := none, endColor := none
    startColorChangeAt := none
    scaling := false, size := none, startSize := none, endSize := none
    startSizeChangeAt := none
    rotating := false, rotation := none, rotationSpeed := none
    worldPosition := false }

/-! ## Particle (src/unnamed/part_002, particle.js)

A field that the source keeps as null when unused is an Option.  The
onSpawn / onUpdate callback hooks are not modelled (the claims under check
concern runs without custom hooks). -/

structure Particle where
  age : ℚ
  finished : Bool
  ttl : ℚ
  gravityX : Option ℚ
  gravityY : Option ℚ
  gravityZ : Option ℚ
  velocity : Vec3
  acceleration : Option Vec3
  position : Vec3
  alpha : Option ℚ
  startAlpha : Option ℚ
  endAlpha : Option ℚ
  startAlphaChangeAt : ℚ
  colorize : Bool
  color : Option Color
  startColor : Option Color
  endColor : Option Color
  startColorChangeAt : ℚ
  size : Option ℚ
  startSize : Option ℚ
  endSize : Option ℚ
  startSizeChangeAt : ℚ
  rotation : Option ℚ
  rotationSpeed : Option ℚ
  startWorldPosition : Option Vec3
deriving DecidableEq, Repr

/-- getConstOrRandomVector(target, options.field): an undefined option yields
the zero vector (or null when returnNullIfUndefined); a constant vector (an
object, hence truthy) is copied, a randomizer generates — either way the
modelled Vec3 is the resulting value. -/
def getConstOrRandomVector (o : Option Vec3) : Vec3 :=
  match o with
  | none => Vec3.zero
  | some v => v

/-- Same helper with returnNullIfUndefined = true (used for acceleration). -/
def getConstOrRandomVectorOrNull (o : Option Vec3) : Option Vec3 := o

/-- getConstOrRandomColor(target, options.field): an undefined option yields
white, otherwise the configured / generated color. -/
def getConstOrRandomColor (o : Option Color) : Color :=
  match o with
  | none => ⟨1, 1, 1⟩
  | some c => c

/-- Particle.reset().  ttlDraw is the Math.random() sample used by
getRandomWithSpread when ttlExtra is set.  Fully re-derives every field from
the options; nothing of the previous life carries over (the source reuses the
vector objects as targets but overwrites their contents). -/
def Particle.reset (o : ParticleOptions) (ttlDraw : ℚ) : Particle :=
  let velocity0 := getConstOrRandomVector o.velocity
  let velocity :=
    match o.velocityBonus with
    | none => velocity0
    | some b => Vec3.add velocity0 b
  let ttl := jsOr (getRandomWithSpread (jsOrOpt o.ttl 1) o.ttlExtra ttlDraw) 1
  { age := 0
    finished := false
    gravityX := o.gravityX
    gravityY := if jsTruthy o.gravityY then o.gravityY else o.gravity
    gravityZ := o.gravityZ
    velocity := velocity
    acceleration := getConstOrRandomVectorOrNull o.acceleration
    position := getConstOrRandomVector o.offset
    ttl := ttl
    alpha := if o.fade ∧ o.alpha.isSome then some (jsOr (o.alpha.getD 0) 0) else none
    startAlpha :=
      if o.fade ∧ o.alpha.isSome = false then some (jsOr (o.startAlpha.getD 0) 0) else none
    endAlpha :=
      if o.fade ∧ o.alpha.isSome = false then some (jsOr (o.endAlpha.getD 0) 0) else none
    startAlphaChangeAt := (jsOrOpt o.startAlphaChangeAt 0) / ttl
    colorize := o.colorize
    color := if o.colorize ∧ o.color.isSome then some (getConstOrRandomColor o.color) else none
    startColor :=
      if o.colorize ∧ o.color.isSome = false then some (getConstOrRandomColor o.startColor)
      else none
    endColor :=
      if o.colorize ∧ o.color.isSome = false then some (getConstOrRandomColor o.endColor)
      else none
    startColorChangeAt := (jsOrOpt o.startColorChangeAt 0) / ttl
    size := if o.scaling ∧ o.size.isSome then some (jsOr (o.size.getD 0) 0) else none
    startSize :=
      if o.scaling ∧ o.size.isSome = false then some (jsOr (o.startSize.getD 0) 0) else none
    endSize :=
      if o.scaling ∧ o.size.isSome = false then some (jsOr (o.endSize.getD 0) 0) else none
    startSizeChangeAt := (jsOrOpt o.startSizeChangeAt 0) / ttl
    rotation := if o.rotating then some (jsOr (jsOrOpt o.rotation 0) 0) else none
    rotationSpeed := if o.rotating then some (jsOr (jsOrOpt o.rotationSpeed 0) 0) else none
    startWorldPosition := none }

/-- The attribute writes one Particle.update call pushes through the system
write interface.  For alpha / color / size the outer Option records whether
the setter was called at all and the inner value is the JS argument passed
(which itself can be null, hence the nested Option).  rotation records the
last value written (the setter can run twice on a first update). -/
structure Writes where
  alphaW : Option (Option ℚ)
  colorW : Option (Option Color)
  sizeW : Option (Option ℚ)
  rotationW : Option ℚ
  positionW : Option Vec3
deriving DecidableEq, Repr

/-- The empty write record (a finished particle pushes nothing). -/
def Writes.empty : Writes :=
  { alphaW := none, colorW := none, sizeW := none, rotationW := none, positionW := none }

/-- Advance age by dt / ttl and clamp: the source tests age > 1 strictly,
clamps to exactly 1 and sets finished. -/
def ageStep (age dt ttl : ℚ) : ℚ × Bool :=
  let a := age + dt / ttl
  if a > 1 then (1, true) else (a, false)

/-- Particle.update(index, deltaTime).  sysWP is the system world position
at this call (system.getWorldPosition()), wpEnabled the
options.particles.worldPosition flag.  Returns the advanced particle and the
attribute writes of this call.  Follows the source order: finished guard;
first-update block (anchor capture and initial pushes) or the animated
pushes; rotation integration; gravity then position integration; the
world-position correction on a scratch value (the stored local position is
not touched); the position push; acceleration integration; age advance and
the strict > 1 finish test.  The onUpdate hook is not modelled. -/
def Particle.update (p : Particle) (dt : ℚ) (sysWP : Vec3) (wpEnabled : Bool) :
    Particle × Writes :=
  if p.finished then (p, Writes.empty)
  else
    let firstUpdate := p.age = 0
    let swp := if firstUpdate ∧ wpEnabled then some sysWP else p.startWorldPosition
    let alphaW : Option (Option ℚ) :=
      if firstUpdate then
        if p.alpha.isSome ∨ p.startAlpha.isSome then some (jsOrQ p.alpha p.startAlpha) else none
      else
        if p.startAlpha.isSome ∧ p.age ≥ p.startAlphaChangeAt then
          some (some (lerp (p.startAlpha.getD 0) (p.endAlpha.getD 0)
            (if p.startAlphaChangeAt ≠ 0 then
              (p.age - p.startAlphaChangeAt) / (1 - p.startAlphaChangeAt)
            else p.age)))
        else none
    let colorW : Option (Option Color) :=
      if firstUpdate then
        if p.color.isSome ∨ p.startColor.isSome then some (jsOrObj p.color p.startColor)
        else none
      else
        if p.startColor.isSome ∧ p.age ≥ p.startColorChangeAt then
          some (some (lerpColors (p.startColor.getD ⟨1, 1, 1⟩) (p.endColor.getD ⟨1, 1, 1⟩)
            (if p.startColorChangeAt ≠ 0 then
              (p.age - p.startColorChangeAt) / (1 - p.startColorChangeAt)
            else p.age)))
        else none
    let sizeW : Option (Option ℚ) :=
      if firstUpdate then
        if p.size.isSome ∨ p.startSize.isSome then some (jsOrQ p.size p.startSize) else none
      else
        if p.startSize.isSome ∧ p.age ≥ p.startSizeChangeAt then
          some (some (lerp (p.startSize.getD 0) (p.endSize.getD 0)
            (if p.startSizeChangeAt ≠ 0 then
              (p.age - p.startSizeChangeAt) / (1 - p.startSizeChangeAt)
            else p.age)))
        else none
    let rotW0 : Option ℚ :=
      if firstUpdate ∧ p.rotation.isSome then some (p.rotation.getD 0) else none
    let rotSpin := jsTruthy p.rotationSpeed
    let rotation1 :=
      if rotSpin then some (p.rotation.getD 0 + p.rotationSpeed.getD 0 * dt) else p.rotation
    let rotW := if rotSpin then rotation1 else rotW0
    -- kinematics: this.velocity is always a vector object after reset, so the
    -- if-velocity guard of the source is always taken
    let v1 : Vec3 :=
      ⟨p.velocity.x + (if jsTruthy p.gravityX then p.gravityX.getD 0 * dt else 0),
       p.velocity.y + (if jsTruthy p.gravityY then p.gravityY.getD 0 * dt else 0),
       p.velocity.z + (if jsTruthy p.gravityZ then p.gravityZ.getD 0 * dt else 0)⟩
    let pos1 : Vec3 :=
      ⟨p.position.x + v1.x * dt, p.position.y + v1.y * dt, p.position.z + v1.z * dt⟩
    let pushedPos :=
      match swp with
      | some anchor => Vec3.sub pos1 (Vec3.sub sysWP anchor)
      | none => pos1
    let v2 :=
      match p.acceleration with
      | some a => ⟨v1.x + a.x * dt, v1.y + a.y * dt, v1.z + a.z * dt⟩
      | none => v1
    let ageFin := ageStep p.age dt p.ttl
    ({ p with
        startWorldPosition := swp
        rotation := rotation1
        velocity := v2
        position := pos1
        age := ageFin.1
        finished := ageFin.2 },
     { alphaW := alphaW, colorW := colorW, sizeW := sizeW, rotationW := rotW
       positionW := some pushedPos })

/-! ## ParticlesSystem constructor validation (src/unnamed/part_000)

For the construction-time checks what matters about each option value is its
JS shape: a plain number, a THREE.Color instance, or a Randomizer instance.
The constructor first migrates a plain-number size to globalSize and a
THREE.Color color to globalColor (deleting the per-particle option), then
computes the feature flags, then runs the validations. -/

inductive PVal where
  | num (q : ℚ)
  | colorObj (c : Color)
  | randObj
deriving DecidableEq, Repr

/-- The defined() helper of the source: value is neither undefined nor null. -/
def definedV (o : Option PVal) : Bool := o.isSome

/-- Is the option a plain JS number (typeof === "number")? -/
def isNumV : Option PVal → Bool
  | some (.num _) => true
  | _ => false

/-- Is the option a THREE.Color instance? -/
def isColorObjV : Option PVal → Bool
  | some (.colorObj _) => true
  | _ => false

/-- The per-particle option fields the constructor validates, as passed in. -/
structure CtorParticles where
  alpha : Option PVal
  startAlpha : Option PVal
  endAlpha : Option PVal
  color : Option PVal
  startColor : Option PVal
  endColor : Option PVal
  size : Option PVal
  startSize : Option PVal
  endSize : Option PVal
deriving DecidableEq, Repr

/-- The particle options after the migration steps of the constructor plus the
computed feature flags and the global options the migrations fill in. -/
structure CtorOutcome where
  particles : CtorParticles
  globalSize : Option ℚ
  globalColor : Option Color
  fade : Bool
  rotating : Bool
  colorize : Bool
  scaling : Bool
deriving DecidableEq, Repr

/-- The validation part of the ParticlesSystem constructor (lines 225-270 of
the source): migrate a plain-number size to globalSize and a THREE.Color
color to globalColor (deleting the originals), compute the feature flags,
then raise the six configuration errors in source order.  The rotating flag
depends on rotation options not modelled here, so it is passed in. -/
def ParticlesSystem.validateOptions (p0 : CtorParticles) (rotating : Bool) :
    Except String CtorOutcome :=
  let globalSize : Option ℚ :=
    match p0.size with
    | some (.num q) => some q
    | _ => none
  let size1 : Option PVal := if isNumV p0.size then none else p0.size
  let globalColor : Option Color :=
    match p0.color with
    | some (.colorObj c) => some c
    | _ => none
  let color1 : Option PVal := if isColorObjV p0.color then none else p0.color
  let p : CtorParticles := { p0 with size := size1, color := color1 }
  let fade := definedV p.startAlpha ∨ definedV p.alpha
  let colorize := definedV p.color ∨ definedV p.startColor
  let scaling := definedV p.size ∨ definedV p.startSize
  if definedV p.startAlpha ∧ definedV p.endAlpha = false then
    Except.error "When providing startAlpha you must also provide endAlpha!"
  else if definedV p.startAlpha ∧ definedV p.alpha then
    Except.error "When providing alpha you cannot also provide startAlpha!"
  else if definedV p.startColor ∧ definedV p.endColor = false then
    Except.error "When providing startColor you must also provide endColor!"
  else if definedV p.startColor ∧ definedV p.color then
    Except.error "When providing color you cannot also provide startColor!"
  else if definedV p.startSize ∧ definedV p.endSize = false then
    Except.error "When providing startSize you must also provide endSize!"
  else if definedV p.startSize ∧ definedV p.size then
    Except.error "When providing size you cannot also provide startSize!"
  else
    Except.ok
      { particles := p, globalSize := globalSize, globalColor := globalColor
        fade := fade, rotating := rotating, colorize := colorize, scaling := scaling }

/-- Did construction succeed? -/
def ctorOk {ε α : Type} : Except ε α → Bool
  | .ok _ => true
  | .error _ => false

/-! ## ParticlesSystem pool (src/unnamed/part_000)

The alive/dead pools, spawnParticles and the alive-particle update loop of
system.update.  The source iterates the alive list in reverse index order and
splices a particle out at its own index the moment it finishes; the net
effect on the lists is: every alive particle is updated once, survivors keep
their relative order, and the finished ones are pushed onto the dead list in
decreasing index order (hence reversed). -/

structure PoolSystem where
  aliveParticles : List Particle
  deadParticles : List Particle
deriving DecidableEq, Repr

/-- particlesCount getter. -/
def PoolSystem.particlesCount (s : PoolSystem) : ℕ := s.aliveParticles.length

/-- maxParticlesCount getter: alive + dead. -/
def PoolSystem.maxParticlesCount (s : PoolSystem) : ℕ :=
  s.aliveParticles.length + s.deadParticles.length

/-- options.system.particlesCount or 10 (JS or: undefined and 0 fall back). -/
def particleCountOf (o : Option ℕ) : ℕ :=
  match o with
  | none => 10
  | some n => if n = 0 then 10 else n

/-- The pool as the constructor leaves it: no alive particles, particlesCount
dead particles, each a freshly reset Particle (new Particle(this) calls
reset()). -/
def PoolSystem.init (o : ParticleOptions) (ttlDraw : ℚ) (particlesCount : Option ℕ) :
    PoolSystem :=
  { aliveParticles := []
    deadParticles := List.replicate (particleCountOf particlesCount) (Particle.reset o ttlDraw) }

/-- The body of the spawnParticles loop, iterated n times: stop early when the
dead pool is empty, otherwise pop a particle off the end of the dead list,
reset it and push it onto the alive list.  reset re-derives every field, so
the old state of the popped particle does not matter. -/
def spawnLoop (o : ParticleOptions) (ttlDraw : ℚ) : ℕ → PoolSystem → PoolSystem
  | 0, s => s
  | n + 1, s =>
    if s.deadParticles.length = 0 then s
    else
      spawnLoop o ttlDraw n
        { aliveParticles := s.aliveParticles ++ [Particle.reset o ttlDraw]
          deadParticles := s.deadParticles.dropLast }

/-- Number of iterations of a JS loop for (i = 0; i < q; ++i) when q may be
fractional (emitter counts are fractional after decay scaling): the ceiling,
and 0 for non-positive q. -/
def numIterations (q : ℚ) : ℕ := (max 0 ⌈q⌉).toNat

/-- ParticlesSystem.spawnParticles(quantity). -/
def PoolSystem.spawnParticles (s : PoolSystem) (quantity : ℚ) (o : ParticleOptions)
    (ttlDraw : ℚ) : PoolSystem :=
  spawnLoop o ttlDraw (numIterations quantity) s

/-- The alive-particle loop of ParticlesSystem.update: update every alive
particle, keep the survivors in order, move the newly finished ones to the
dead pool (in decreasing index order, i.e. reversed). -/
def PoolSystem.updateParticles (s : PoolSystem) (dt : ℚ) (sysWP : Vec3)
    (wpEnabled : Bool) : PoolSystem :=
  let updated := s.aliveParticles.map (fun p => (p.update dt sysWP wpEnabled).1)
  { aliveParticles := updated.filter (fun p => !p.finished)
    deadParticles := s.deadParticles ++ (updated.filter (fun p => p.finished)).reverse }

/-- One pool-affecting operation on a system after construction: either a
direct spawnParticles call, or one system.update pass, which (when the
system ttl is not expired) runs the emitters — their fractional spawn
counts are the toSpawn list, each guarded by the if-toSpawn truthiness test —
and then the alive-particle loop. -/
inductive SysOp where
  | spawnOp (quantity : ℚ)
  | updateOp (ttlExpired : Bool) (toSpawn : List ℚ) (dt : ℚ) (sysWP : Vec3)
deriving Repr

/-- Apply one operation to the pool. -/
def PoolSystem.applyOp (o : ParticleOptions) (ttlDraw : ℚ) (wpEnabled : Bool)
    (s : PoolSystem) : SysOp → PoolSystem
  | .spawnOp q => s.spawnParticles q o ttlDraw
  | .updateOp ttlExpired toSpawn dt sysWP =>
    let s1 :=
      if ttlExpired then s
      else
        toSpawn.foldl (fun acc q => if q ≠ 0 then acc.spawnParticles q o ttlDraw else acc) s
    s1.updateParticles dt sysWP wpEnabled

/-- Run a sequence of operations. -/
def PoolSystem.run (o : ParticleOptions) (ttlDraw : ℚ) (wpEnabled : Bool)
    (s : PoolSystem) (ops : List SysOp) : PoolSystem :=
  ops.foldl (fun acc op => acc.applyOp o ttlDraw wpEnabled op) s

/-! ## Update sequences and concrete configurations used by the claims -/

/-- The inputs of one Particle.update call: the delta time of the frame, the
system world position at the call, and the worldPosition option flag. -/
structure UpdCtx where
  dt : ℚ
  sysWP : Vec3
  wpEnabled : Bool
deriving DecidableEq, Repr

/-- Run a sequence of update calls on a particle, keeping the state. -/
def Particle.runUpdates (p : Particle) (l : List UpdCtx) : Particle :=
  l.foldl (fun q c => (q.update c.dt c.sysWP c.wpEnabled).1) p

/-- Particle options with ttl = 2 and nothing else set (the ttl resolves to
exactly 2 at reset). -/
def ttl2Options : ParticleOptions := { ParticleOptions.blank with ttl := some 2 }

/-- One update with dt = 1/2 at the origin, world-position lock off. -/
def updHalf (p : Particle) : Particle := (p.update (1/2) Vec3.zero false).1

/-- Particle options in constant mode for alpha and size with both constants
resolving to 0 (options.alpha = 0, options.size = 0 after the flags were
computed), ttl = 2. -/
def alphaZeroOptions : ParticleOptions :=
  { ParticleOptions.blank with
      ttl := some 2, fade := true, alpha := some 0, scaling := true, size := some 0 }

/-- Particle options with the world-position lock enabled and no velocity,
gravity or acceleration configured. -/
def lockOptions : ParticleOptions :=
  { ParticleOptions.blank with ttl := some 2, worldPosition := true }

/-- Constructor particle options combining a constant size given as a plain
number with a startSize/endSize pair. -/
def sizeNumConflictOptions : CtorParticles :=
  { alpha := none, startAlpha := none, endAlpha := none
    color := none, startColor := none, endColor := none
    size := some (PVal.num 5), startSize := some (PVal.num 1)
    endSize := some (PVal.num 2) }

/-- A decaying emitter with burst quantity 4, interval quantity 2, interval
length 1 and decay threshold 2, about to fire (countdown 1/2). -/
def decayEmitterExample : Emitter :=
  { options :=
      { onSpawnBurst := some (QSource.constV 4), onInterval := some (QSource.constV 2)
        interval := QSource.constV 1, detoretingMinTtl := some 2 }
    age := 0
    timeToSpawn := 1/2 }

/-- A burst-only decaying emitter: burst quantity 4, no interval policy,
decay threshold 2. -/
def burstOnlyEmitterExample : Emitter :=
  { options :=
      { onSpawnBurst := some (QSource.constV 4), onInterval := none
        interval := QSource.constV 1, detoretingMinTtl := some 2 }
    age := 0
    timeToSpawn := 1/2 }

/-- A small pool: capacity 3, all dead. -/
def smallPoolExample : PoolSystem := PoolSystem.init ParticleOptions.blank 0 (some 3)

/-! ## Helper lemmas: projections of one Particle.update call -/

theorem Particle.update_fst_age (p : Particle) (dt : ℚ) (wp : Vec3) (e : Bool) :
    ((p.update dt wp e).1).age = if p.finished then p.age else (ageStep p.age dt p.ttl).1 := by
  unfold Particle.update
  split <;> rfl

theorem Particle.update_fst_finished (p : Particle) (dt : ℚ) (wp : Vec3) (e : Bool) :
    ((p.update dt wp e).1).finished =
      if p.finished then p.finished else (ageStep p.age dt p.ttl).2 := by
  unfold Particle.update
  split <;> rfl

theorem Particle.update_fst_ttl (p : Particle) (dt : ℚ) (wp : Vec3) (e : Bool) :
    ((p.update dt wp e).1).ttl = p.ttl := by
  unfold Particle.update
  split <;> rfl

theorem ageStep_fst (age dt ttl : ℚ) :
    (ageStep age dt ttl).1 = if age + dt / ttl > 1 then 1 else age + dt / ttl := by
  unfold ageStep
  by_cases h : age + dt / ttl > 1 <;> simp [h]

theorem ageStep_snd (age dt ttl : ℚ) :
    (ageStep age dt ttl).2 = decide (age + dt / ttl > 1) := by
  unfold ageStep
  by_cases h : age + dt / ttl > 1 <;> simp [h]

/-- One non-finished update with 0 ≤ dt and 0 < ttl keeps age within [0,1],
never decreases it, and preserves ttl. -/
theorem Particle.update_age_invariant (p : Particle) (dt : ℚ) (wp : Vec3) (e : Bool)
    (hdt : 0 ≤ dt) (h0 : 0 ≤ p.age) (h1 : p.age ≤ 1) (ht : 0 < p.ttl) :
    p.age ≤ ((p.update dt wp e).1).age ∧ 0 ≤ ((p.update dt wp e).1).age ∧
      ((p.update dt wp e).1).age ≤ 1 ∧ ((p.update dt wp e).1).ttl = p.ttl := by
  have hstep : 0 ≤ dt / p.ttl := div_nonneg hdt ht.le
  have hage : ((p.update dt wp e).1).age =
      if p.finished then p.age else (if p.age + dt / p.ttl > 1 then 1 else p.age + dt / p.ttl) := by
    rw [Particle.update_fst_age, ageStep_fst]
  refine ⟨?_, ?_, ?_, Particle.update_fst_ttl p dt wp e⟩ <;> rw [hage] <;>
    by_cases hf : p.finished = true <;>
      simp only [hf, if_true, Bool.false_eq_true, if_false]
  · exact le_refl _
  · split
    · exact h1
    · exact le_add_of_nonneg_right hstep
  · exact h0
  · split
    · norm_num
    · exact add_nonneg h0 hstep
  · exact h1
  · split
    · exact le_refl 1
    · linarith

/-- Monotone bounded age along any sequence of non-negative-dt updates. -/
theorem Particle.runUpdates_age_invariant (l : List UpdCtx) (p : Particle)
    (hdt : ∀ c ∈ l, 0 ≤ c.dt) (h0 : 0 ≤ p.age) (h1 : p.age ≤ 1) (ht : 0 < p.ttl) :
    p.age ≤ (p.runUpdates l).age ∧ 0 ≤ (p.runUpdates l).age ∧
      (p.runUpdates l).age ≤ 1 ∧ (p.runUpdates l).ttl = p.ttl := by
  induction l generalizing p with
  | nil => exact ⟨le_refl _, h0, h1, rfl⟩
  | cons c rest ih =>
    have hc : 0 ≤ c.dt := hdt c (List.mem_cons_self c rest)
    have hrest : ∀ x ∈ rest, 0 ≤ x.dt := fun x hx => hdt x (List.mem_cons_of_mem c hx)
    have hone := Particle.update_age_invariant p c.dt c.sysWP c.wpEnabled hc h0 h1 ht
    have hq : (p.runUpdates (c :: rest)) =
        (((p.update c.dt c.sysWP c.wpEnabled).1).runUpdates rest) := rfl
    have ih2 := ih ((p.update c.dt c.sysWP c.wpEnabled).1) hrest hone.2.1 hone.2.2.1
      (hone.2.2.2 ▸ ht)
    rw [hq]
    exact ⟨le_trans hone.1 ih2.1, ih2.2.1, ih2.2.2.1, ih2.2.2.2.trans hone.2.2.2⟩

/-- C4: for every particle freshly reset from any options (and any randomizer
draw), along every sequence of update calls with non-negative dt within this
life (and positive resolved ttl), the age is monotonically non-decreasing and
stays in [0,1]; reset() sets age to exactly 0.  Monotonicity is stated over
an arbitrary split l1 ++ l2 of the call sequence. -/
theorem c4_age_monotone_bounded (o : ParticleOptions) (d : ℚ) (l1 l2 : List UpdCtx)
    (hdt : ∀ c ∈ l1 ++ l2, 0 ≤ c.dt) (ht : 0 < (Particle.reset o d).ttl) :
    (Particle.reset o d).age = 0 ∧
    ((Particle.reset o d).runUpdates l1).age ≤
      ((Particle.reset o d).runUpdates (l1 ++ l2)).age ∧
    0 ≤ ((Particle.reset o d).runUpdates (l1 ++ l2)).age ∧
    ((Particle.reset o d).runUpdates (l1 ++ l2)).age ≤ 1 := by
  set p := Particle.reset o d with hp
  have hage0 : p.age = 0 := rfl
  have happ : p.runUpdates (l1 ++ l2) = (p.runUpdates l1).runUpdates l2 := by
    unfold Particle.runUpdates
    exact List.foldl_append _ _ _ _
  have hdt1 : ∀ c ∈ l1, 0 ≤ c.dt := fun c hc => hdt c (List.mem_append_left l2 hc)
  have hdt2 : ∀ c ∈ l2, 0 ≤ c.dt := fun c hc => hdt c (List.mem_append_right l1 hc)
  have inv1 := Particle.runUpdates_age_invariant l1 p hdt1 (by rw [hage0]) (by rw [hage0]; norm_num) ht
  have inv2 := Particle.runUpdates_age_invariant l2 (p.runUpdates l1) hdt2
    inv1.2.1 inv1.2.2.1 (inv1.2.2.2 ▸ ht)
  refine ⟨hage0, ?_, ?_, ?_⟩ <;> rw [happ]
  · exact inv2.1
  · exact inv2.2.1
  · exact inv2.2.2.1

/-- reset always zeroes age and clears the finished flag. -/
theorem Particle.reset_age (o : ParticleOptions) (d : ℚ) : (Particle.reset o d).age = 0 := rfl

theorem Particle.reset_finished (o : ParticleOptions) (d : ℚ) :
    (Particle.reset o d).finished = false := rfl

/-- The ttl2Options particle resolves its ttl to exactly 2. -/
theorem reset_ttl2Options_ttl : (Particle.reset ttl2Options 0).ttl = 2 := by
  norm_num [Particle.reset, ttl2Options, ParticleOptions.blank, jsOrOpt, jsOr,
    getRandomWithSpread, jsTruthy]

/-- Witness for c4_age_monotone_bounded at a concrete particle: ttl = 2,
two dt = 1/2 updates split one-and-one. -/
theorem c4_age_monotone_bounded_witness :
    (Particle.reset ttl2Options 0).age = 0 ∧
    ((Particle.reset ttl2Options 0).runUpdates [⟨1/2, Vec3.zero, false⟩]).age ≤
      ((Particle.reset ttl2Options 0).runUpdates
        ([⟨1/2, Vec3.zero, false⟩] ++ [⟨1/2, Vec3.zero, false⟩])).age ∧
    0 ≤ ((Particle.reset ttl2Options 0).runUpdates
        ([⟨1/2, Vec3.zero, false⟩] ++ [⟨1/2, Vec3.zero, false⟩])).age ∧
    ((Particle.reset ttl2Options 0).runUpdates
        ([⟨1/2, Vec3.zero, false⟩] ++ [⟨1/2, Vec3.zero, false⟩])).age ≤ 1 :=
  c4_age_monotone_bounded ttl2Options 0 [⟨1/2, Vec3.zero, false⟩] [⟨1/2, Vec3.zero, false⟩]
    (by rintro c hc; fin_cases hc <;> norm_num)
    (by rw [reset_ttl2Options_ttl]; norm_num)

/-- One dt = 1/2 update of a live ttl = 2 particle not yet at the end of its
life advances age by exactly 1/4 and does not finish it. -/
theorem Particle.update_half_ttl2 (p : Particle) (dt : ℚ) (wp : Vec3) (e : Bool)
    (hfin : p.finished = false) (httl : p.ttl = 2) (hdt : dt = 1/2)
    (hle : p.age + 1/4 ≤ 1) :
    ((p.update dt wp e).1).age = p.age + 1/4 ∧
    ((p.update dt wp e).1).finished = false ∧
    ((p.update dt wp e).1).ttl = 2 := by
  have hq : p.age + dt / p.ttl = p.age + 1/4 := by rw [httl, hdt]; norm_num
  have hngt : ¬(p.age + 1/4 > 1) := by linarith
  refine ⟨?_, ?_, ?_⟩
  · rw [Particle.update_fst_age, ageStep_fst, hq]
    simp only [hfin, Bool.false_eq_true, if_false]
    exact if_neg hngt
  · rw [Particle.update_fst_finished, ageStep_snd, hq]
    simp only [hfin, Bool.false_eq_true, if_false, decide_eq_false_iff_not]
    exact hngt
  · rw [Particle.update_fst_ttl, httl]

/-- C2 (amended): a particle with ttl resolved to 2 and dt = 1/2 per frame
has age exactly 1 after the 4th update but is NOT yet finished then — the
finish test of the source is strictly age > 1 — and the finished flag becomes
true only during the 5th update (which clamps age back to 1). -/
theorem c2_finished_on_fifth_update (p : Particle) (hfin : p.finished = false)
    (hage : p.age = 0) (httl : p.ttl = 2) (c1 c2 c3 c4 c5 : UpdCtx)
    (h1 : c1.dt = 1/2) (h2 : c2.dt = 1/2) (h3 : c3.dt = 1/2) (h4 : c4.dt = 1/2)
    (h5 : c5.dt = 1/2) :
    (p.runUpdates [c1, c2, c3, c4]).age = 1 ∧
    (p.runUpdates [c1, c2, c3, c4]).finished = false ∧
    (p.runUpdates [c1, c2, c3, c4, c5]).finished = true ∧
    (p.runUpdates [c1, c2, c3, c4, c5]).age = 1 := by
  have s1 := Particle.update_half_ttl2 p c1.dt c1.sysWP c1.wpEnabled hfin httl h1
    (by rw [hage]; norm_num)
  set q1 := (p.update c1.dt c1.sysWP c1.wpEnabled).1 with hq1
  have ha1 : q1.age = 1/4 := by rw [s1.1, hage]; norm_num
  have s2 := Particle.update_half_ttl2 q1 c2.dt c2.sysWP c2.wpEnabled s1.2.1 s1.2.2 h2
    (by rw [ha1]; norm_num)
  set q2 := (q1.update c2.dt c2.sysWP c2.wpEnabled).1 with hq2
  have ha2 : q2.age = 1/2 := by rw [s2.1, ha1]; norm_num
  have s3 := Particle.update_half_ttl2 q2 c3.dt c3.sysWP c3.wpEnabled s2.2.1 s2.2.2 h3
    (by rw [ha2]; norm_num)
  set q3 := (q2.update c3.dt c3.sysWP c3.wpEnabled).1 with hq3
  have ha3 : q3.age = 3/4 := by rw [s3.1, ha2]; norm_num
  have s4 := Particle.update_half_ttl2 q3 c4.dt c4.sysWP c4.wpEnabled s3.2.1 s3.2.2 h4
    (by rw [ha3]; norm_num)
  set q4 := (q3.update c4.dt c4.sysWP c4.wpEnabled).1 with hq4
  have ha4 : q4.age = 1 := by rw [s4.1, ha3]; norm_num
  have hrun4 : p.runUpdates [c1, c2, c3, c4] = q4 := rfl
  -- the 5th update overshoots: 1 + 1/4 > 1, so the source clamps and finishes
  have hq5a : q4.age + c5.dt / q4.ttl = 5/4 := by rw [ha4, s4.2.2, h5]; norm_num
  have ha5 : ((q4.update c5.dt c5.sysWP c5.wpEnabled).1).age = 1 := by
    rw [Particle.update_fst_age, ageStep_fst, hq5a]
    simp [s4.2.1]
    norm_num
  have hf5 : ((q4.update c5.dt c5.sysWP c5.wpEnabled).1).finished = true := by
    rw [Particle.update_fst_finished, ageStep_snd, hq5a]
    simp [s4.2.1]
    norm_num
  have hrun5 : p.runUpdates [c1, c2, c3, c4, c5] =
      (q4.update c5.dt c5.sysWP c5.wpEnabled).1 := rfl
  rw [hrun4, hrun5]
  exact ⟨ha4, s4.2.1, hf5, ha5⟩

/-- Witness for c2_finished_on_fifth_update at the concrete reset particle of
ttl2Options. -/
theorem c2_finished_on_fifth_update_witness :
    ((Particle.reset ttl2Options 0).runUpdates
      [⟨1/2, Vec3.zero, false⟩, ⟨1/2, Vec3.zero, false⟩, ⟨1/2, Vec3.zero, false⟩,
       ⟨1/2, Vec3.zero, false⟩]).age = 1 ∧
    ((Particle.reset ttl2Options 0).runUpdates
      [⟨1/2, Vec3.zero, false⟩, ⟨1/2, Vec3.zero, false⟩, ⟨1/2, Vec3.zero, false⟩,
       ⟨1/2, Vec3.zero, false⟩]).finished = false ∧
    ((Particle.reset ttl2Options 0).runUpdates
      [⟨1/2, Vec3.zero, false⟩, ⟨1/2, Vec3.zero, false⟩, ⟨1/2, Vec3.zero, false⟩,
       ⟨1/2, Vec3.zero, false⟩, ⟨1/2, Vec3.zero, false⟩]).finished = true ∧
    ((Particle.reset ttl2Options 0).runUpdates
      [⟨1/2, Vec3.zero, false⟩, ⟨1/2, Vec3.zero, false⟩, ⟨1/2, Vec3.zero, false⟩,
       ⟨1/2, Vec3.zero, false⟩, ⟨1/2, Vec3.zero, false⟩]).age = 1 :=
  c2_finished_on_fifth_update (Particle.reset ttl2Options 0) rfl rfl
    reset_ttl2Options_ttl _ _ _ _ _ rfl rfl rfl rfl rfl

/-- C2 counterexample: with ttl resolved to exactly 2 and four dt = 1/2
updates, the age of the particle is exactly 1 after the 4th update call, yet its
finished flag is still false — the claim that finished becomes true during
the 4th update is false on the code (the source tests age > 1 strictly). -/
theorem c2_counterexample :
    (Particle.reset ttl2Options 0).ttl = 2 ∧
    (updHalf (updHalf (updHalf (updHalf (Particle.reset ttl2Options 0))))).age = 1 ∧
    (updHalf (updHalf (updHalf (updHalf (Particle.reset ttl2Options 0))))).finished
      = false := by
  have httl := reset_ttl2Options_ttl
  set p0 := Particle.reset ttl2Options 0 with hp0
  have ha0 : p0.age = 0 := rfl
  have hf0 : p0.finished = false := rfl
  have s1 := Particle.update_half_ttl2 p0 (1/2) Vec3.zero false hf0 httl rfl
    (by rw [ha0]; norm_num)
  set q1 := (p0.update (1/2) Vec3.zero false).1 with hq1
  have ha1 : q1.age = 1/4 := by rw [s1.1, ha0]; norm_num
  have s2 := Particle.update_half_ttl2 q1 (1/2) Vec3.zero false s1.2.1 s1.2.2 rfl
    (by rw [ha1]; norm_num)
  set q2 := (q1.update (1/2) Vec3.zero false).1 with hq2
  have ha2 : q2.age = 1/2 := by rw [s2.1, ha1]; norm_num
  have s3 := Particle.update_half_ttl2 q2 (1/2) Vec3.zero false s2.2.1 s2.2.2 rfl
    (by rw [ha2]; norm_num)
  set q3 := (q2.update (1/2) Vec3.zero false).1 with hq3
  have ha3 : q3.age = 3/4 := by rw [s3.1, ha2]; norm_num
  have s4 := Particle.update_half_ttl2 q3 (1/2) Vec3.zero false s3.2.1 s3.2.2 rfl
    (by rw [ha3]; norm_num)
  set q4 := (q3.update (1/2) Vec3.zero false).1 with hq4
  have ha4 : q4.age = 1 := by rw [s4.1, ha3]; norm_num
  have hrun : updHalf (updHalf (updHalf (updHalf p0))) = q4 := rfl
  rw [hrun]
  exact ⟨httl, ha4, s4.2.1⟩

/-! ## Pool lemmas for the capacity invariant and spawn saturation -/

/-- Splitting a particle list by the finished flag preserves total length. -/
theorem filter_finished_length (l : List Particle) :
    (l.filter (fun p => !p.finished)).length +
      (l.filter (fun p => p.finished)).length = l.length := by
  induction l with
  | nil => rfl
  | cons a rest ih =>
    cases h : a.finished <;> simp [List.filter_cons, h] <;> omega

/-- The alive-particle loop never changes alive + dead. -/
theorem PoolSystem.updateParticles_maxCount (s : PoolSystem) (dt : ℚ) (wp : Vec3)
    (e : Bool) : (s.updateParticles dt wp e).maxParticlesCount = s.maxParticlesCount := by
  unfold PoolSystem.updateParticles PoolSystem.maxParticlesCount
  simp only [List.length_append, List.length_reverse]
  have h := filter_finished_length (s.aliveParticles.map (fun p => (p.update dt wp e).1))
  simp only [List.length_map] at h
  omega

/-- spawnLoop appends one freshly reset particle to the alive list per
iteration until the dead pool runs out. -/
theorem spawnLoop_alive (o : ParticleOptions) (d : ℚ) (n : ℕ) (s : PoolSystem) :
    (spawnLoop o d n s).aliveParticles =
      s.aliveParticles ++
        List.replicate (min n s.deadParticles.length) (Particle.reset o d) := by
  induction n generalizing s with
  | zero => simp [spawnLoop]
  | succ n ih =>
    unfold spawnLoop
    by_cases h : s.deadParticles.length = 0
    · simp [h]
    · have hlen : s.deadParticles.dropLast.length = s.deadParticles.length - 1 :=
        s.deadParticles.length_dropLast
      rw [if_neg h, ih]
      simp only [hlen, List.append_assoc]
      have hmin : min (n + 1) s.deadParticles.length =
          min n (s.deadParticles.length - 1) + 1 := by omega
      rw [hmin, List.replicate_succ]
      rfl

/-- spawnLoop pops one dead particle per iteration until the pool runs out. -/
theorem spawnLoop_dead_length (o : ParticleOptions) (d : ℚ) (n : ℕ) (s : PoolSystem) :
    (spawnLoop o d n s).deadParticles.length = s.deadParticles.length - n := by
  induction n generalizing s with
  | zero => simp [spawnLoop]
  | succ n ih =>
    unfold spawnLoop
    by_cases h : s.deadParticles.length = 0
    · simp [h]
    · have hlen : s.deadParticles.dropLast.length = s.deadParticles.length - 1 :=
        s.deadParticles.length_dropLast
      rw [if_neg h, ih]
      simp only [hlen]
      omega

/-- spawnLoop never changes alive + dead. -/
theorem spawnLoop_maxCount (o : ParticleOptions) (d : ℚ) (n : ℕ) (s : PoolSystem) :
    (spawnLoop o d n s).maxParticlesCount = s.maxParticlesCount := by
  unfold PoolSystem.maxParticlesCount
  rw [spawnLoop_alive, spawnLoop_dead_length]
  simp only [List.length_append, List.length_replicate]
  omega

/-- spawnParticles never changes alive + dead. -/
theorem PoolSystem.spawnParticles_maxCount (s : PoolSystem) (q : ℚ) (o : ParticleOptions)
    (d : ℚ) : (s.spawnParticles q o d).maxParticlesCount = s.maxParticlesCount :=
  spawnLoop_maxCount o d (numIterations q) s

/-- Any post-construction operation (spawn call or update pass) preserves
alive + dead. -/
theorem PoolSystem.applyOp_maxCount (o : ParticleOptions) (d : ℚ) (e : Bool)
    (s : PoolSystem) (op : SysOp) :
    (s.applyOp o d e op).maxParticlesCount = s.maxParticlesCount := by
  cases op with
  | spawnOp q => exact s.spawnParticles_maxCount q o d
  | updateOp ttlExpired toSpawn dt sysWP =>
    unfold PoolSystem.applyOp
    rw [PoolSystem.updateParticles_maxCount]
    by_cases hx : ttlExpired = true
    · simp [hx]
    · simp only [hx, Bool.false_eq_true, if_false]
      induction toSpawn generalizing s with
      | nil => rfl
      | cons q rest ih =>
        simp only [List.foldl_cons]
        rw [ih]
        by_cases hq : q ≠ 0
        · rw [if_pos hq, PoolSystem.spawnParticles_maxCount]
        · rw [if_neg hq]

/-- C3: for every particles system and every sequence of update and spawn
operations after construction, alive count + dead count equals the configured
capacity (options.system.particlesCount, defaulting to 10): the pool never
grows or shrinks. -/
theorem c3_capacity_invariant (o : ParticleOptions) (d : ℚ) (e : Bool)
    (pc : Option ℕ) (ops : List SysOp) :
    ((PoolSystem.init o d pc).run o d e ops).maxParticlesCount = particleCountOf pc := by
  have hrun : ∀ (l : List SysOp) (s : PoolSystem),
      (s.run o d e l).maxParticlesCount = s.maxParticlesCount := by
    intro l
    induction l with
    | nil => intro s; rfl
    | cons op rest ih =>
      intro s
      have hstep : s.run o d e (op :: rest) = (s.applyOp o d e op).run o d e rest := rfl
      rw [hstep, ih, PoolSystem.applyOp_maxCount]
  rw [hrun]
  unfold PoolSystem.init PoolSystem.maxParticlesCount
  simp

/-- N with N > dead-count iterations exhaust the pool exactly. -/
theorem numIterations_natCast (N : ℕ) : numIterations (N : ℚ) = N := by
  unfold numIterations
  rw [Int.ceil_natCast]
  omega

/-- C7: requesting to spawn N particles when only K < N dead slots remain
activates exactly K particles — each one popped from the dead pool, reset and
appended to the alive list — empties the dead pool, and (the model being a
total function) raises no error; the excess request is silently dropped. -/
theorem c7_spawn_saturation (s : PoolSystem) (o : ParticleOptions) (d : ℚ) (N K : ℕ)
    (hK : s.deadParticles.length = K) (hNK : K < N) :
    (s.spawnParticles (N : ℚ) o d).aliveParticles =
      s.aliveParticles ++ List.replicate K (Particle.reset o d) ∧
    (s.spawnParticles (N : ℚ) o d).aliveParticles.length =
      s.aliveParticles.length + K ∧
    (s.spawnParticles (N : ℚ) o d).deadParticles = [] := by
  unfold PoolSystem.spawnParticles
  rw [numIterations_natCast]
  have hmin : min N s.deadParticles.length = K := by omega
  have halive := spawnLoop_alive o d N s
  rw [hmin] at halive
  have hdead := spawnLoop_dead_length o d N s
  have hdead0 : (spawnLoop o d N s).deadParticles.length = 0 := by omega
  refine ⟨halive, ?_, List.eq_nil_of_length_eq_zero hdead0⟩
  rw [halive]
  simp

/-- Witness for c7_spawn_saturation: capacity-3 pool, all 3 slots dead,
spawn request of 5. -/
theorem c7_spawn_saturation_witness :
    (smallPoolExample.spawnParticles ((5 : ℕ) : ℚ) ParticleOptions.blank 0).aliveParticles =
      smallPoolExample.aliveParticles ++
        List.replicate 3 (Particle.reset ParticleOptions.blank 0) ∧
    (smallPoolExample.spawnParticles ((5 : ℕ) : ℚ) ParticleOptions.blank 0).aliveParticles.length =
      smallPoolExample.aliveParticles.length + 3 ∧
    (smallPoolExample.spawnParticles ((5 : ℕ) : ℚ) ParticleOptions.blank 0).deadParticles = [] :=
  c7_spawn_saturation smallPoolExample ParticleOptions.blank 0 5 3 rfl (by omega)

/-! ## Emitter lemmas and claims -/

/-- The spawn count one Emitter.update call returns, spelled out. -/
theorem Emitter.update_fst (e : Emitter) (dt : ℚ) (ts : Option ℚ) :
    (e.update dt ts).1 =
      (let ret : ℚ :=
        if e.age = 0 ∧ jsTruthyS e.options.onSpawnBurst then
          randomizerOrValue (e.options.onSpawnBurst.getD (.constV 0))
        else 0
      if jsTruthyS e.options.onInterval = false then ret
      else
        let ret1 :=
          if e.timeToSpawn - dt ≤ 0 then
            ret + randomizerOrValue (e.options.onInterval.getD (.constV 0))
          else ret
        if jsTruthy e.options.detoretingMinTtl ∧
            jsLt ts (e.options.detoretingMinTtl.getD 0) then
          ret1 * ((ts.getD 0) / (e.options.detoretingMinTtl.getD 0))
        else ret1) := by
  unfold Emitter.update
  by_cases h : jsTruthyS e.options.onInterval = false <;> simp [h]

/-- C5: with an interval policy configured and decay configured with
threshold T, when the system remaining lifetime t is strictly below T at
the emitter update, the entire count returned this frame (burst plus
interval contributions) is the count the same emitter would return without
decay, scaled by t / T; in particular at t = T/2 the emitter returns half
that count. -/
theorem c5_decay_scales_entire_count (e : Emitter) (dt t T : ℚ)
    (hI : jsTruthyS e.options.onInterval = true)
    (hD : e.options.detoretingMinTtl = some T) (hT : T ≠ 0) (ht : t < T) :
    (e.update dt (some t)).1 =
      (({ e with options :=
          { e.options with detoretingMinTtl := none } }).update dt (some t)).1 * (t / T) ∧
    (t = T / 2 →
      (e.update dt (some t)).1 =
        (({ e with options :=
            { e.options with detoretingMinTtl := none } }).update dt (some t)).1 / 2) := by
  have hInot : ¬(jsTruthyS e.options.onInterval = false) := by rw [hI]; simp
  have hTtrue : jsTruthy (some T) = true := by simp [jsTruthy, hT]
  have hlt : jsLt (some t) T = true := by simp [jsLt, ht]
  have hmain : (e.update dt (some t)).1 =
      (({ e with options :=
          { e.options with detoretingMinTtl := none } }).update dt (some t)).1 * (t / T) := by
    rw [Emitter.update_fst, Emitter.update_fst]
    simp [hD, hInot, jsTruthy, jsLt, hT, ht]
  refine ⟨hmain, fun h2 => ?_⟩
  rw [hmain, h2]
  have hhalf : T / 2 / T = 1 / 2 := by
    field_simp
    ring
  rw [hhalf]
  ring

/-- Witness for c5_decay_scales_entire_count: the concrete decaying emitter,
dt = 1, remaining lifetime 1, threshold 2 (so exactly half the threshold). -/
theorem c5_decay_scales_entire_count_witness :
    (decayEmitterExample.update 1 (some 1)).1 =
      (({ decayEmitterExample with options :=
          { decayEmitterExample.options with detoretingMinTtl := none } }).update
            1 (some 1)).1 * (1 / 2) ∧
    ((1 : ℚ) = 2 / 2 →
      (decayEmitterExample.update 1 (some 1)).1 =
        (({ decayEmitterExample with options :=
            { decayEmitterExample.options with detoretingMinTtl := none } }).update
              1 (some 1)).1 / 2) :=
  c5_decay_scales_entire_count decayEmitterExample 1 1 2
    (by simp [decayEmitterExample, jsTruthyS, QSource.truthy])
    rfl (by norm_num) (by norm_num)

/-- C9: an emitter with a burst policy and decay configured but no interval
policy returns, on its first update, the resolved burst quantity unscaled by
decay, even when the system remaining lifetime is strictly below the decay
threshold: the no-interval early return runs before the decay scaling step. -/
theorem c9_burst_unscaled_without_interval (e : Emitter) (dt : ℚ) (ts : Option ℚ)
    (T : ℚ) (hI : e.options.onInterval = none) (hAge : e.age = 0)
    (hB : jsTruthyS e.options.onSpawnBurst = true)
    (hD : e.options.detoretingMinTtl = some T) (hT : T ≠ 0)
    (hlt : jsLt ts T = true) :
    (e.update dt ts).1 = randomizerOrValue (e.options.onSpawnBurst.getD (.constV 0)) := by
  have hI2 : jsTruthyS e.options.onInterval = false := by rw [hI]; rfl
  rw [Emitter.update_fst]
  simp [hI2, hAge, hB]

/-- Witness for c9_burst_unscaled_without_interval: the concrete burst-only
emitter with threshold 2, remaining lifetime 1 (below the threshold). -/
theorem c9_burst_unscaled_without_interval_witness :
    (burstOnlyEmitterExample.update 1 (some 1)).1 =
      randomizerOrValue (burstOnlyEmitterExample.options.onSpawnBurst.getD (.constV 0)) :=
  c9_burst_unscaled_without_interval burstOnlyEmitterExample 1 (some 1) 2
    rfl rfl (by simp [burstOnlyEmitterExample, jsTruthyS, QSource.truthy])
    rfl (by norm_num) (by simp [jsLt])

/-! ## Kinematics and world-position-lock lemmas -/

theorem Particle.update_fst_position (p : Particle) (dt : ℚ) (wp : Vec3) (e : Bool) :
    ((p.update dt wp e).1).position =
      if p.finished then p.position
      else
        ⟨p.position.x +
            (p.velocity.x + (if jsTruthy p.gravityX then p.gravityX.getD 0 * dt else 0)) * dt,
         p.position.y +
            (p.velocity.y + (if jsTruthy p.gravityY then p.gravityY.getD 0 * dt else 0)) * dt,
         p.position.z +
            (p.velocity.z + (if jsTruthy p.gravityZ then p.gravityZ.getD 0 * dt else 0)) * dt⟩ := by
  unfold Particle.update
  split <;> rfl

theorem Particle.update_fst_velocity (p : Particle) (dt : ℚ) (wp : Vec3) (e : Bool) :
    ((p.update dt wp e).1).velocity =
      if p.finished then p.velocity
      else
        (let v1 : Vec3 :=
          ⟨p.velocity.x + (if jsTruthy p.gravityX then p.gravityX.getD 0 * dt else 0),
           p.velocity.y + (if jsTruthy p.gravityY then p.gravityY.getD 0 * dt else 0),
           p.velocity.z + (if jsTruthy p.gravityZ then p.gravityZ.getD 0 * dt else 0)⟩
        match p.acceleration with
        | some a => ⟨v1.x + a.x * dt, v1.y + a.y * dt, v1.z + a.z * dt⟩
        | none => v1) := by
  unfold Particle.update
  split <;> rfl

theorem Particle.update_fst_startWorldPosition (p : Particle) (dt : ℚ) (wp : Vec3)
    (e : Bool) :
    ((p.update dt wp e).1).startWorldPosition =
      if p.finished then p.startWorldPosition
      else if p.age = 0 ∧ e = true then some wp else p.startWorldPosition := by
  unfold Particle.update
  split <;> rfl

theorem Particle.update_fst_gravityX (p : Particle) (dt : ℚ) (wp : Vec3) (e : Bool) :
    ((p.update dt wp e).1).gravityX = p.gravityX := by
  unfold Particle.update
  split <;> rfl

theorem Particle.update_fst_gravityY (p : Particle) (dt : ℚ) (wp : Vec3) (e : Bool) :
    ((p.update dt wp e).1).gravityY = p.gravityY := by
  unfold Particle.update
  split <;> rfl

theorem Particle.update_fst_gravityZ (p : Particle) (dt : ℚ) (wp : Vec3) (e : Bool) :
    ((p.update dt wp e).1).gravityZ = p.gravityZ := by
  unfold Particle.update
  split <;> rfl

theorem Particle.update_fst_acceleration (p : Particle) (dt : ℚ) (wp : Vec3) (e : Bool) :
    ((p.update dt wp e).1).acceleration = p.acceleration := by
  unfold Particle.update
  split <;> rfl

theorem Particle.update_snd_positionW (p : Particle) (dt : ℚ) (wp : Vec3) (e : Bool) :
    ((p.update dt wp e).2).positionW =
      if p.finished then none
      else
        (let v1 : Vec3 :=
          ⟨p.velocity.x + (if jsTruthy p.gravityX then p.gravityX.getD 0 * dt else 0),
           p.velocity.y + (if jsTruthy p.gravityY then p.gravityY.getD 0 * dt else 0),
           p.velocity.z + (if jsTruthy p.gravityZ then p.gravityZ.getD 0 * dt else 0)⟩
        let pos1 : Vec3 :=
          ⟨p.position.x + v1.x * dt, p.position.y + v1.y * dt, p.position.z + v1.z * dt⟩
        some (match (if p.age = 0 ∧ e = true then some wp else p.startWorldPosition) with
          | some anchor => Vec3.sub pos1 (Vec3.sub wp anchor)
          | none => pos1)) := by
  unfold Particle.update
  split <;> rfl

/-- The truthiness guard around one gravity axis is equivalent to adding the
axis value unconditionally (an absent or zero gravity adds zero). -/
theorem gravity_term (g : Option ℚ) (dt : ℚ) :
    (if jsTruthy g then g.getD 0 * dt else 0) = g.getD 0 * dt := by
  cases g with
  | none => simp [jsTruthy]
  | some q => by_cases h : q = 0 <;> simp [jsTruthy, h]

/-- C6: in every particle update (velocity is always tracked after reset),
gravity times dt is added to each velocity axis before the position is
integrated — the new position is the old position plus dt times the
gravity-updated velocity — and acceleration times dt is added to the velocity
only after the position integration, so this update acceleration leaves
this update position unchanged (it only affects later updates). -/
theorem c6_kinematics_order (p : Particle) (dt : ℚ) (wp : Vec3) (e : Bool)
    (hfin : p.finished = false) :
    ((p.update dt wp e).1).position =
      Vec3.add p.position (Vec3.smul dt
        ⟨p.velocity.x + p.gravityX.getD 0 * dt,
         p.velocity.y + p.gravityY.getD 0 * dt,
         p.velocity.z + p.gravityZ.getD 0 * dt⟩) ∧
    ((p.update dt wp e).1).velocity =
      Vec3.add
        ⟨p.velocity.x + p.gravityX.getD 0 * dt,
         p.velocity.y + p.gravityY.getD 0 * dt,
         p.velocity.z + p.gravityZ.getD 0 * dt⟩
        (Vec3.smul dt (p.acceleration.getD Vec3.zero)) ∧
    ∀ a : Option Vec3,
      ((({ p with acceleration := a }).update dt wp e).1).position =
        ((p.update dt wp e).1).position := by
  refine ⟨?_, ?_, ?_⟩
  · rw [Particle.update_fst_position]
    simp only [hfin, Bool.false_eq_true, if_false, gravity_term, Vec3.add, Vec3.smul]
    simp only [Vec3.mk.injEq]
    refine ⟨by ring, by ring, by ring⟩
  · rw [Particle.update_fst_velocity]
    simp only [hfin, Bool.false_eq_true, if_false]
    cases p.acceleration with
    | none =>
      simp only [gravity_term, Vec3.add, Vec3.smul, Vec3.zero, Option.getD_none,
        Vec3.mk.injEq]
      refine ⟨by ring, by ring, by ring⟩
    | some a =>
      simp only [gravity_term, Vec3.add, Vec3.smul, Option.getD_some, Vec3.mk.injEq]
      refine ⟨by ring, by ring, by ring⟩
  · intro a
    rw [Particle.update_fst_position, Particle.update_fst_position]

/-- Witness for c6_kinematics_order at a concrete particle: the reset of
ttl2Options (zero velocity, no gravity, no acceleration), dt = 1. -/
theorem c6_kinematics_order_witness :
    (((Particle.reset ttl2Options 0).update 1 Vec3.zero false).1).position =
      Vec3.add (Particle.reset ttl2Options 0).position (Vec3.smul 1
        ⟨(Particle.reset ttl2Options 0).velocity.x +
            (Particle.reset ttl2Options 0).gravityX.getD 0 * 1,
         (Particle.reset ttl2Options 0).velocity.y +
            (Particle.reset ttl2Options 0).gravityY.getD 0 * 1,
         (Particle.reset ttl2Options 0).velocity.z +
            (Particle.reset ttl2Options 0).gravityZ.getD 0 * 1⟩) ∧
    (((Particle.reset ttl2Options 0).update 1 Vec3.zero false).1).velocity =
      Vec3.add
        ⟨(Particle.reset ttl2Options 0).velocity.x +
            (Particle.reset ttl2Options 0).gravityX.getD 0 * 1,
         (Particle.reset ttl2Options 0).velocity.y +
            (Particle.reset ttl2Options 0).gravityY.getD 0 * 1,
         (Particle.reset ttl2Options 0).velocity.z +
            (Particle.reset ttl2Options 0).gravityZ.getD 0 * 1⟩
        (Vec3.smul 1 ((Particle.reset ttl2Options 0).acceleration.getD Vec3.zero)) ∧
    ∀ a : Option Vec3,
      ((({ Particle.reset ttl2Options 0 with acceleration := a }).update
          1 Vec3.zero false).1).position =
        (((Particle.reset ttl2Options 0).update 1 Vec3.zero false).1).position :=
  c6_kinematics_order (Particle.reset ttl2Options 0) 1 Vec3.zero false rfl

/-- A live particle with zero velocity, no gravity and no acceleration keeps
its stored local position and zero velocity across an update. -/
theorem Particle.update_stationary (p : Particle) (dt : ℚ) (wp : Vec3) (e : Bool)
    (hfin : p.finished = false) (hv : p.velocity = Vec3.zero)
    (hgx : p.gravityX = none) (hgy : p.gravityY = none) (hgz : p.gravityZ = none)
    (hacc : p.acceleration = none) :
    ((p.update dt wp e).1).position = p.position ∧
    ((p.update dt wp e).1).velocity = Vec3.zero := by
  constructor
  · rw [Particle.update_fst_position]
    simp [hfin, hv, hgx, hgy, hgz, jsTruthy, Vec3.zero]
  · rw [Particle.update_fst_velocity]
    simp [hfin, hacc, hv, hgx, hgy, hgz, jsTruthy, Vec3.zero]

/-- A finished particle update is the identity and pushes nothing. -/
theorem Particle.update_finished_id (p : Particle) (dt : ℚ) (wp : Vec3) (e : Bool)
    (h : p.finished = true) : p.update dt wp e = (p, Writes.empty) := by
  unfold Particle.update
  simp [h]

/-- One update of a locked stationary particle (zero velocity, no gravity, no
acceleration, anchor W0 captured, stored local position P0, positive age,
ttl t0) preserves that whole state: with a positive age the first-update
anchor-capture branch can never re-run, so the anchor survives, and the
stored local position is untouched. -/
theorem Particle.update_locked_step (q : Particle) (dt : ℚ) (W : Vec3) (e : Bool)
    (P0 W0 : Vec3) (t0 : ℚ) (ht0 : 0 < t0) (hdt : 0 ≤ dt)
    (hv : q.velocity = Vec3.zero) (hgx : q.gravityX = none) (hgy : q.gravityY = none)
    (hgz : q.gravityZ = none) (hacc : q.acceleration = none)
    (hswp : q.startWorldPosition = some W0) (hpos : q.position = P0)
    (hage : 0 < q.age) (httl : q.ttl = t0) :
    ((q.update dt W e).1).velocity = Vec3.zero ∧
    ((q.update dt W e).1).gravityX = none ∧
    ((q.update dt W e).1).gravityY = none ∧
    ((q.update dt W e).1).gravityZ = none ∧
    ((q.update dt W e).1).acceleration = none ∧
    ((q.update dt W e).1).startWorldPosition = some W0 ∧
    ((q.update dt W e).1).position = P0 ∧
    0 < ((q.update dt W e).1).age ∧
    ((q.update dt W e).1).ttl = t0 := by
  by_cases hf : q.finished = true
  · rw [Particle.update_finished_id q dt W e hf]
    exact ⟨hv, hgx, hgy, hgz, hacc, hswp, hpos, hage, httl⟩
  · have hf2 : q.finished = false := by simpa using hf
    have hstat := Particle.update_stationary q dt W e hf2 hv hgx hgy hgz hacc
    have hagegoal : 0 < ((q.update dt W e).1).age := by
      rw [Particle.update_fst_age, ageStep_fst, httl]
      have hd : 0 ≤ dt / t0 := div_nonneg hdt ht0.le
      simp only [hf2, Bool.false_eq_true, if_false]
      split
      · norm_num
      · linarith
    have hswpgoal : ((q.update dt W e).1).startWorldPosition = some W0 := by
      rw [Particle.update_fst_startWorldPosition]
      have hne : ¬(q.age = 0 ∧ e = true) := by
        rintro ⟨h0, _⟩
        rw [h0] at hage
        exact lt_irrefl 0 hage
      simp [hf2, hne, hswp]
    refine ⟨hstat.2, ?_, ?_, ?_, ?_, hswpgoal, by rw [hstat.1, hpos], hagegoal, ?_⟩
    · rw [Particle.update_fst_gravityX]; exact hgx
    · rw [Particle.update_fst_gravityY]; exact hgy
    · rw [Particle.update_fst_gravityZ]; exact hgz
    · rw [Particle.update_fst_acceleration]; exact hacc
    · rw [Particle.update_fst_ttl]; exact httl

/-- The locked stationary state persists along any sequence of further
updates with non-negative dt, at arbitrary system world positions. -/
theorem Particle.runUpdates_locked (l : List UpdCtx) (q : Particle) (P0 W0 : Vec3)
    (t0 : ℚ) (ht0 : 0 < t0) (hl : ∀ c ∈ l, 0 ≤ c.dt)
    (hv : q.velocity = Vec3.zero) (hgx : q.gravityX = none) (hgy : q.gravityY = none)
    (hgz : q.gravityZ = none) (hacc : q.acceleration = none)
    (hswp : q.startWorldPosition = some W0) (hpos : q.position = P0)
    (hage : 0 < q.age) (httl : q.ttl = t0) :
    (q.runUpdates l).velocity = Vec3.zero ∧
    (q.runUpdates l).gravityX = none ∧
    (q.runUpdates l).gravityY = none ∧
    (q.runUpdates l).gravityZ = none ∧
    (q.runUpdates l).acceleration = none ∧
    (q.runUpdates l).startWorldPosition = some W0 ∧
    (q.runUpdates l).position = P0 ∧
    0 < (q.runUpdates l).age ∧
    (q.runUpdates l).ttl = t0 := by
  induction l generalizing q with
  | nil => exact ⟨hv, hgx, hgy, hgz, hacc, hswp, hpos, hage, httl⟩
  | cons c rest ih =>
    have hc : 0 ≤ c.dt := hl c (List.mem_cons_self c rest)
    have hrest : ∀ x ∈ rest, 0 ≤ x.dt := fun x hx => hl x (List.mem_cons_of_mem c hx)
    have hstep := Particle.update_locked_step q c.dt c.sysWP c.wpEnabled P0 W0 t0
      ht0 hc hv hgx hgy hgz hacc hswp hpos hage httl
    obtain ⟨a1, a2, a3, a4, a5, a6, a7, a8, a9⟩ := hstep
    have hq : q.runUpdates (c :: rest) =
        ((q.update c.dt c.sysWP c.wpEnabled).1).runUpdates rest := rfl
    rw [hq]
    exact ih ((q.update c.dt c.sysWP c.wpEnabled).1) hrest a1 a2 a3 a4 a5 a6 a7 a8 a9

/-- C8: world-position lock.  A particle spawned with zero velocity, no
gravity and no acceleration captures the system world position W0 as its
anchor on its first update without touching its stored local position; the
anchor and the stored local position persist through ANY number of further
updates (with non-negative dt, at arbitrary system world positions), and at
any later update at system world position W, as long as the particle is
still alive, the position pushed to the renderer is the local position minus
(W − W0), so pushed + W equals local + W0 — the world position of the
particle at spawn — and the stored local position is again left unmutated by
the correction. -/
theorem c8_world_position_lock (p : Particle) (W0 W : Vec3) (dt1 dt2 : ℚ)
    (l : List UpdCtx)
    (hfin : p.finished = false) (hage : p.age = 0) (hv : p.velocity = Vec3.zero)
    (hgx : p.gravityX = none) (hgy : p.gravityY = none) (hgz : p.gravityZ = none)
    (hacc : p.acceleration = none)
    (httl : 0 < p.ttl) (hdt1 : 0 < dt1) (hl : ∀ c ∈ l, 0 ≤ c.dt)
    (hlive : ((((p.update dt1 W0 true).1).runUpdates l)).finished = false) :
    ((p.update dt1 W0 true).1).startWorldPosition = some W0 ∧
    ((p.update dt1 W0 true).1).position = p.position ∧
    (((p.update dt1 W0 true).1).runUpdates l).position = p.position ∧
    ((((p.update dt1 W0 true).1).runUpdates l).update dt2 W true).2.positionW =
      some (Vec3.sub p.position (Vec3.sub W W0)) ∧
    Vec3.add (Vec3.sub p.position (Vec3.sub W W0)) W = Vec3.add p.position W0 ∧
    ((((p.update dt1 W0 true).1).runUpdates l).update dt2 W true).1.position =
      p.position := by
  set q := (p.update dt1 W0 true).1 with hqdef
  have hswp : q.startWorldPosition = some W0 := by
    rw [hqdef, Particle.update_fst_startWorldPosition]
    simp [hfin, hage]
  have hstat := Particle.update_stationary p dt1 W0 true hfin hv hgx hgy hgz hacc
  have hqgx : q.gravityX = none := by rw [hqdef, Particle.update_fst_gravityX]; exact hgx
  have hqgy : q.gravityY = none := by rw [hqdef, Particle.update_fst_gravityY]; exact hgy
  have hqgz : q.gravityZ = none := by rw [hqdef, Particle.update_fst_gravityZ]; exact hgz
  have hqacc : q.acceleration = none := by
    rw [hqdef, Particle.update_fst_acceleration]; exact hacc
  have hqv : q.velocity = Vec3.zero := hstat.2
  have hqage : 0 < q.age := by
    rw [hqdef, Particle.update_fst_age, ageStep_fst, hage]
    have hd : 0 < dt1 / p.ttl := div_pos hdt1 httl
    simp only [hfin, Bool.false_eq_true, if_false]
    split
    · norm_num
    · linarith
  have hqttl : q.ttl = p.ttl := by rw [hqdef, Particle.update_fst_ttl]
  have hrun := Particle.runUpdates_locked l q p.position W0 p.ttl httl hl
    hqv hqgx hqgy hqgz hqacc hswp hstat.1 hqage hqttl
  obtain ⟨r1, r2, r3, r4, r5, r6, r7, r8, r9⟩ := hrun
  set r := q.runUpdates l with hrdef
  have hstat2 := Particle.update_stationary r dt2 W true hlive r1 r2 r3 r4 r5
  have hpush : ((r.update dt2 W true).2).positionW =
      some (Vec3.sub r.position (Vec3.sub W W0)) := by
    rw [Particle.update_snd_positionW]
    have hne : r.age ≠ 0 := by
      intro h0
      rw [h0] at r8
      exact lt_irrefl 0 r8
    simp [hlive, hne, r6, r1, r2, r3, r4, jsTruthy, Vec3.zero]
  refine ⟨hswp, hstat.1, r7, ?_, ?_, ?_⟩
  · rw [hpush, r7]
  · simp only [Vec3.add, Vec3.sub, Vec3.mk.injEq]
    refine ⟨by ring, by ring, by ring⟩
  · rw [hstat2.1, r7]

/-- Witness for c8_world_position_lock: the reset particle of lockOptions,
anchor world position (1,2,3), one intermediate update at world position
(7,8,9), later update at world position (4,5,6), dt = 1/2 throughout. -/
theorem c8_world_position_lock_witness :
    ((Particle.reset lockOptions 0).update (1/2) ⟨1, 2, 3⟩ true).1.startWorldPosition =
      some ⟨1, 2, 3⟩ ∧
    ((Particle.reset lockOptions 0).update (1/2) ⟨1, 2, 3⟩ true).1.position =
      (Particle.reset lockOptions 0).position ∧
    (((Particle.reset lockOptions 0).update (1/2) ⟨1, 2, 3⟩ true).1.runUpdates
        [⟨1/2, ⟨7, 8, 9⟩, true⟩]).position = (Particle.reset lockOptions 0).position ∧
    ((((Particle.reset lockOptions 0).update (1/2) ⟨1, 2, 3⟩ true).1.runUpdates
        [⟨1/2, ⟨7, 8, 9⟩, true⟩]).update (1/2) ⟨4, 5, 6⟩ true).2.positionW =
      some (Vec3.sub (Particle.reset lockOptions 0).position
        (Vec3.sub ⟨4, 5, 6⟩ ⟨1, 2, 3⟩)) ∧
    Vec3.add (Vec3.sub (Particle.reset lockOptions 0).position
        (Vec3.sub ⟨4, 5, 6⟩ ⟨1, 2, 3⟩)) ⟨4, 5, 6⟩ =
      Vec3.add (Particle.reset lockOptions 0).position ⟨1, 2, 3⟩ ∧
    ((((Particle.reset lockOptions 0).update (1/2) ⟨1, 2, 3⟩ true).1.runUpdates
        [⟨1/2, ⟨7, 8, 9⟩, true⟩]).update (1/2) ⟨4, 5, 6⟩ true).1.position =
      (Particle.reset lockOptions 0).position := by
  have httl : (Particle.reset lockOptions 0).ttl = 2 := by
    norm_num [Particle.reset, lockOptions, ParticleOptions.blank, jsOrOpt, jsOr,
      getRandomWithSpread, jsTruthy]
  have hs1 := Particle.update_half_ttl2 (Particle.reset lockOptions 0) (1/2) ⟨1, 2, 3⟩ true
    rfl httl rfl (by rw [Particle.reset_age]; norm_num)
  have hs2 := Particle.update_half_ttl2
    ((Particle.reset lockOptions 0).update (1/2) ⟨1, 2, 3⟩ true).1 (1/2) ⟨7, 8, 9⟩ true
    hs1.2.1 hs1.2.2 rfl (by rw [hs1.1, Particle.reset_age]; norm_num)
  exact c8_world_position_lock (Particle.reset lockOptions 0) ⟨1, 2, 3⟩ ⟨4, 5, 6⟩
    (1/2) (1/2) [⟨1/2, ⟨7, 8, 9⟩, true⟩] rfl rfl rfl rfl rfl rfl rfl
    (by rw [httl]; norm_num) (by norm_num)
    (by rintro c hc; fin_cases hc <;> norm_num)
    hs2.2.1

/-! ## First-update attribute pushes -/

theorem Particle.update_snd_alphaW (p : Particle) (dt : ℚ) (wp : Vec3) (e : Bool) :
    ((p.update dt wp e).2).alphaW =
      if p.finished then none
      else if p.age = 0 then
        (if p.alpha.isSome ∨ p.startAlpha.isSome then some (jsOrQ p.alpha p.startAlpha)
         else none)
      else
        (if p.startAlpha.isSome ∧ p.age ≥ p.startAlphaChangeAt then
          some (some (lerp (p.startAlpha.getD 0) (p.endAlpha.getD 0)
            (if p.startAlphaChangeAt ≠ 0 then
              (p.age - p.startAlphaChangeAt) / (1 - p.startAlphaChangeAt)
            else p.age)))
        else none) := by
  unfold Particle.update
  split <;> rfl

theorem Particle.update_snd_sizeW (p : Particle) (dt : ℚ) (wp : Vec3) (e : Bool) :
    ((p.update dt wp e).2).sizeW =
      if p.finished then none
      else if p.age = 0 then
        (if p.size.isSome ∨ p.startSize.isSome then some (jsOrQ p.size p.startSize)
         else none)
      else
        (if p.startSize.isSome ∧ p.age ≥ p.startSizeChangeAt then
          some (some (lerp (p.startSize.getD 0) (p.endSize.getD 0)
            (if p.startSizeChangeAt ≠ 0 then
              (p.age - p.startSizeChangeAt) / (1 - p.startSizeChangeAt)
            else p.age)))
        else none) := by
  unfold Particle.update
  split <;> rfl

/-- C10 (amended): on a particle first update in constant mode for alpha
(startAlpha null) and size (startSize null), the argument passed to setAlpha
(setSize) is the resolved constant only when that constant is nonzero; a
constant that resolved to 0 is falsy, so the push expression constant-or-
start falls back to the start value, which is null in constant mode — the
setter receives null, not 0. -/
theorem c10_constant_push_falls_back_on_zero (p : Particle) (dt : ℚ) (wp : Vec3)
    (e : Bool) (ca cs : ℚ) (hfin : p.finished = false) (hage : p.age = 0)
    (hA : p.alpha = some ca) (hA2 : p.startAlpha = none)
    (hS : p.size = some cs) (hS2 : p.startSize = none) :
    ((p.update dt wp e).2).alphaW = some (if ca = 0 then none else some ca) ∧
    ((p.update dt wp e).2).sizeW = some (if cs = 0 then none else some cs) := by
  constructor
  · rw [Particle.update_snd_alphaW]
    by_cases h : ca = 0 <;> simp [hfin, hage, hA, hA2, jsOrQ, jsTruthy, h]
  · rw [Particle.update_snd_sizeW]
    by_cases h : cs = 0 <;> simp [hfin, hage, hS, hS2, jsOrQ, jsTruthy, h]

/-- Witness for c10_constant_push_falls_back_on_zero: the reset particle of
alphaZeroOptions (both constants resolve to 0). -/
theorem c10_constant_push_falls_back_on_zero_witness :
    (((Particle.reset alphaZeroOptions 0).update 1 Vec3.zero false).2).alphaW =
      some (if (0 : ℚ) = 0 then none else some 0) ∧
    (((Particle.reset alphaZeroOptions 0).update 1 Vec3.zero false).2).sizeW =
      some (if (0 : ℚ) = 0 then none else some 0) :=
  c10_constant_push_falls_back_on_zero (Particle.reset alphaZeroOptions 0) 1 Vec3.zero
    false 0 0 rfl rfl
    (by simp [Particle.reset, alphaZeroOptions, ParticleOptions.blank, jsOr])
    rfl
    (by simp [Particle.reset, alphaZeroOptions, ParticleOptions.blank, jsOr])
    rfl

/-- C10 counterexample: with the constant alpha and constant size both
resolving to 0, the first update calls setAlpha and setSize with null (the
null startAlpha / startSize the or-expression falls back to), not with the
resolved constant 0 — refuting the claim that the pushed value equals the
resolved constant for every constant including 0. -/
theorem c10_counterexample :
    (Particle.reset alphaZeroOptions 0).alpha = some 0 ∧
    (Particle.reset alphaZeroOptions 0).size = some 0 ∧
    (((Particle.reset alphaZeroOptions 0).update 1 Vec3.zero false).2).alphaW =
      some none ∧
    (((Particle.reset alphaZeroOptions 0).update 1 Vec3.zero false).2).sizeW =
      some none ∧
    some (none : Option ℚ) ≠ some (some (0 : ℚ)) := by
  have hA : (Particle.reset alphaZeroOptions 0).alpha = some 0 := by
    simp [Particle.reset, alphaZeroOptions, ParticleOptions.blank, jsOr]
  have hS : (Particle.reset alphaZeroOptions 0).size = some 0 := by
    simp [Particle.reset, alphaZeroOptions, ParticleOptions.blank, jsOr]
  have hA2 : (Particle.reset alphaZeroOptions 0).startAlpha = none := rfl
  have hS2 : (Particle.reset alphaZeroOptions 0).startSize = none := rfl
  refine ⟨hA, hS, ?_, ?_, by simp⟩
  · rw [Particle.update_snd_alphaW]
    simp [Particle.reset_finished, Particle.reset_age, hA, hA2, jsOrQ, jsTruthy]
  · rw [Particle.update_snd_sizeW]
    simp [Particle.reset_finished, Particle.reset_age, hS, hS2, jsOrQ, jsTruthy]

/-! ## Construction-time validation (C1) -/

theorem definedV_size_migrated (s : Option PVal) :
    definedV (if isNumV s then none else s) = (definedV s && !isNumV s) := by
  by_cases h : isNumV s = true <;> simp [h, definedV]

theorem definedV_color_migrated (c : Option PVal) :
    definedV (if isColorObjV c then none else c) = (definedV c && !isColorObjV c) := by
  by_cases h : isColorObjV c = true <;> simp [h, definedV]

/-- C1 (amended): construction fails exactly when a start value comes without
its matching end value, or a constant is combined with a start/end pair for
the same attribute EXCEPT when that constant is a plain-number size or a
THREE.Color color — those are migrated to globalSize / globalColor (and the
per-particle option deleted) before validation runs, so they raise no
error. -/
theorem c1_validation_characterization (p0 : CtorParticles) (rotating : Bool) :
    ctorOk (ParticlesSystem.validateOptions p0 rotating) = false ↔
      (definedV p0.startAlpha = true ∧
        (definedV p0.endAlpha = false ∨ definedV p0.alpha = true)) ∨
      (definedV p0.startColor = true ∧
        (definedV p0.endColor = false ∨
          (definedV p0.color = true ∧ isColorObjV p0.color = false))) ∨
      (definedV p0.startSize = true ∧
        (definedV p0.endSize = false ∨
          (definedV p0.size = true ∧ isNumV p0.size = false))) := by
  unfold ParticlesSystem.validateOptions ctorOk
  simp only [definedV_size_migrated, definedV_color_migrated]
  split_ifs with h1 h2 h3 h4 h5 h6 <;>
    simp_all [Bool.and_eq_true, Bool.not_eq_true'] <;> tauto

/-- C1 counterexample: a constant size given as a plain number combined with
a startSize/endSize pair passes construction without an error (the number is
migrated to globalSize and the size option deleted before validation),
refuting the claim that every constant-plus-start/end combination for the
same attribute raises a construction error. -/
theorem c1_counterexample :
    definedV sizeNumConflictOptions.size = true ∧
    definedV sizeNumConflictOptions.startSize = true ∧
    definedV sizeNumConflictOptions.endSize = true ∧
    ctorOk (ParticlesSystem.validateOptions sizeNumConflictOptions false) = true := by
  decide

end Partykals
